import Mathlib

/-!
Verification development for the SIH problem-statement review dashboard
(`app.py`): a single-user tool that loads a tabular record set, filters and
searches it, pages through records with a clamped cursor, formats description
text, mutates status/notes with a full-file persist, and exports the
shortlisted subset.

The definitions below are a shallow embedding of the program's logic:
dataframe cells become `Option String` (with `none` playing the role of
pandas `NaN`), dataframe filters become `List.filter`, and the pandas string
operations are modelled char-by-char.
-/

namespace PSReader

/-- A cell of the tabular dataset as pandas holds it in memory:
`none` models `NaN` (a missing value). -/
abbrev Cell := Option String

/-- One problem-statement record in its post-load in-memory form.
`psNumber` is a plain `String` because the load path runs
`df['PS Number'] = df['PS Number'].astype(str)` (app.py line 22), which turns
every cell of that column into a string.  All other columns keep their pandas
cell representation (`NaN` possible). -/
structure Record where
  psNumber : String
  title : Cell
  organization : Cell
  department : Cell
  category : Cell
  theme : Cell
  description : Cell
  status : Cell
  notes : Cell
deriving Repr, DecidableEq

/-- The transient filter specification read from the sidebar: five categorical
selections (each either the wildcard "All" or a concrete value) plus the
free-text search query (app.py lines 38, 47-51). -/
structure FilterSpec where
  category : String
  organization : String
  theme : String
  department : String
  status : String
  searchQuery : String
deriving Repr, DecidableEq

/-! ### Search: pandas `str.contains(query, case=False, na=False)`

`Series.str.contains` treats the query as a regular expression
(`regex=True` is the pandas default) and reports whether `re.search` finds a
match anywhere in the cell, ignoring case; `NaN` cells yield `False` because
of `na=False`.  We model the fragment of Python regular expressions that has
no metacharacters other than `.` (any character except a newline); every
other character of the query is compiled to a case-insensitive literal.  The
theorems only ever evaluate the model inside this fragment, where it agrees
with Python exactly. -/

/-- One token of a compiled search pattern: a literal character or the `.`
wildcard (which in Python matches any character except `\n`). -/
inductive RTok where
  | lit (c : Char)
  | dot
deriving Repr, DecidableEq

/-- Compile a query string to a pattern: `.` becomes the wildcard, every
other character a literal. -/
def compilePattern (q : String) : List RTok :=
  q.data.map fun c => if c = '.' then RTok.dot else RTok.lit c

/-- Whether one pattern token matches one character, ignoring case
(`re.IGNORECASE`). -/
def tokMatches : RTok → Char → Bool
  | RTok.lit c, d => c.toLower == d.toLower
  | RTok.dot, d => d != '\n'

/-- Whether the pattern matches a text starting exactly at its first
character (the pattern may end before the text does). -/
def matchesHere : List RTok → List Char → Bool
  | [], _ => true
  | _ :: _, [] => false
  | t :: ts, c :: cs => tokMatches t c && matchesHere ts cs

/-- `re.search`: whether the pattern matches starting at some position of the
text. -/
def reSearch (ts : List RTok) : List Char → Bool
  | [] => matchesHere ts []
  | c :: cs => matchesHere ts (c :: cs) || reSearch ts cs

/-- `cell.str.contains(q, case=False, na=False)` on one cell: `NaN` never
matches, otherwise regex search. -/
def cellContains (q : String) : Cell → Bool
  | none => false
  | some s => reSearch (compilePattern q) s.data

/-- The search predicate of app.py lines 68-71: the query matches the
`PS Number` column (always a string after `astype(str)`) or the
`Problem Statement Title` column (possibly `NaN`). -/
def searchHit (q : String) (r : Record) : Bool :=
  reSearch (compilePattern q) r.psNumber.data || cellContains q r.title

/-- The metacharacters of Python regular expressions; a query free of them is
matched purely literally by `str.contains`. -/
def isRegexMeta (c : Char) : Bool :=
  c == '.' || c == '^' || c == '$' || c == '*' || c == '+' || c == '?'
    || c == '\x7b' || c == '\x7d' || c == '[' || c == ']' || c == '\\'
    || c == '|' || c == '(' || c == ')'

/-- Lower-case a character list (`re.IGNORECASE` on ASCII). -/
def lowerList (l : List Char) : List Char := l.map Char.toLower

/-- Case-insensitive substring test — the spec's reading of the search
("the query is a case-insensitive substring of either psNumber or title").
Stated from the spec's words to be compared against the code's regex-based
`searchHit`. -/
def containsCI (hay ndl : String) : Bool :=
  decide (lowerList ndl.data <:+: lowerList hay.data)

/-- Case-insensitive substring test on a cell; `NaN` never matches. -/
def cellContainsCI (c : Cell) (ndl : String) : Bool :=
  match c with
  | none => false
  | some s => containsCI s ndl

/-! ### The filter pipeline (app.py lines 54-71) -/

/-- `if selected_category != "All": filtered_df = filtered_df[filtered_df['Category'] == selected_category]` -/
def filterCategory (sel : String) (rs : List Record) : List Record :=
  if sel = "All" then rs else rs.filter fun r => decide (r.category = some sel)

/-- app.py lines 58-59, same shape for the Organization column. -/
def filterOrganization (sel : String) (rs : List Record) : List Record :=
  if sel = "All" then rs else rs.filter fun r => decide (r.organization = some sel)

/-- app.py lines 60-61, same shape for the Theme column. -/
def filterTheme (sel : String) (rs : List Record) : List Record :=
  if sel = "All" then rs else rs.filter fun r => decide (r.theme = some sel)

/-- app.py lines 62-63, same shape for the Department column. -/
def filterDepartment (sel : String) (rs : List Record) : List Record :=
  if sel = "All" then rs else rs.filter fun r => decide (r.department = some sel)

/-- app.py lines 64-65, same shape for the Status column. -/
def filterStatus (sel : String) (rs : List Record) : List Record :=
  if sel = "All" then rs else rs.filter fun r => decide (r.status = some sel)

/-- `if search_query: filtered_df = filtered_df[... contains ... | ... contains ...]`
(app.py lines 67-71); an empty query skips the search entirely. -/
def filterSearch (q : String) (rs : List Record) : List Record :=
  if q = "" then rs else rs.filter (searchHit q)

/-- The five categorical filters applied in program order
(Category, Organization, Theme, Department, Status). -/
def applyCategoricals (spec : FilterSpec) (rs : List Record) : List Record :=
  filterStatus spec.status
    (filterDepartment spec.department
      (filterTheme spec.theme
        (filterOrganization spec.organization
          (filterCategory spec.category rs))))

/-- The whole filter pipeline of app.py lines 54-71: categorical filters
first, then the free-text search. -/
def applyFilters (spec : FilterSpec) (rs : List Record) : List Record :=
  filterSearch spec.searchQuery (applyCategoricals spec rs)

/-- The single-pass AND-combination of the five categorical predicates, each
vacuous when its selection is the wildcard "All". -/
def catPred (spec : FilterSpec) (r : Record) : Bool :=
  (decide (spec.category = "All") || decide (r.category = some spec.category))
    && (decide (spec.organization = "All") || decide (r.organization = some spec.organization))
    && (decide (spec.theme = "All") || decide (r.theme = some spec.theme))
    && (decide (spec.department = "All") || decide (r.department = some spec.department))
    && (decide (spec.status = "All") || decide (r.status = some spec.status))

/-! ### Query stripping (app.py line 38) -/

/-- The characters `str.strip()` removes in Python. -/
def isPySpace (c : Char) : Bool :=
  c == ' ' || c == '\t' || c == '\n' || c == '\r' || c == '\x0b' || c == '\x0c'

/-- Python `str.strip()`: drop leading and trailing whitespace. -/
def pyStrip (s : String) : String :=
  String.mk (((s.data.dropWhile isPySpace).reverse.dropWhile isPySpace).reverse)

/-- The pipeline as driven from the sidebar: the raw text-input value is
stripped (app.py line 38) before it is used as the search query. -/
def runQuery (spec : FilterSpec) (rawQuery : String) (rs : List Record) : List Record :=
  applyFilters { spec with searchQuery := pyStrip rawQuery } rs

/-! ### Navigation cursor (app.py lines 86-87) -/

/-- `if st.session_state.current_ps_index >= len(filtered_df): st.session_state.current_ps_index = 0` -/
def clampIndex (c L : Nat) : Nat :=
  if c ≥ L then 0 else c

/-! ### Description formatter (app.py lines 147-158)

Three `re.sub(r"(?i)(LABEL)", r"**\1**", ...)` passes, then
`.replace("•", "\n- ")`, then `.replace(". ", ".\n")`.  `re.sub` replaces the
leftmost non-overlapping occurrences, scanning left to right; the labels here
contain no regex metacharacters, so the case-insensitive scan below is exact.
The recursions carry a fuel argument equal to the input length so that they
are structural (the fuel never runs out: it drops at least as fast as the
text). -/

/-- One `re.sub(r"(?i)(label)", r"**label**", text)` pass: at each position,
if the next `label.length` characters equal the label up to case, wrap them
(unchanged, preserving their casing) in `**` markers and continue after them;
otherwise move one character forward. -/
def reSubFuel : Nat → List Char → List Char → List Char
  | 0, _, s => s
  | _ + 1, _, [] => []
  | fuel + 1, label, c :: cs =>
    if !label.isEmpty && (lowerList label).isPrefixOf (lowerList (c :: cs)) then
      ('*' :: '*' :: (c :: cs).take label.length)
        ++ ('*' :: '*' :: reSubFuel fuel label ((c :: cs).drop label.length))
    else
      c :: reSubFuel fuel label cs

/-- Case-insensitive wrap of every occurrence of `label` in `**` markers. -/
def emphasize (label : String) (s : List Char) : List Char :=
  reSubFuel s.length label.data s

/-- One `str.replace(pat, repl)` pass: replace the leftmost non-overlapping
occurrences, scanning left to right. -/
def replaceFuel : Nat → List Char → List Char → List Char → List Char
  | 0, _, _, s => s
  | _ + 1, _, _, [] => []
  | fuel + 1, pat, repl, c :: cs =>
    if !pat.isEmpty && pat.isPrefixOf (c :: cs) then
      repl ++ replaceFuel fuel pat repl ((c :: cs).drop pat.length)
    else
      c :: replaceFuel fuel pat repl cs

/-- Python `text.replace(pat, repl)`. -/
def pyReplace (pat repl : String) (s : List Char) : List Char :=
  replaceFuel s.length pat.data repl.data s

/-- The description formatter of app.py lines 150-158, with the five
transforms in program order. -/
def formatDescription (s : String) : String :=
  let t1 := emphasize "Problem Statement" s.data
  let t2 := emphasize "Background" t1
  let t3 := emphasize "Expected Solution" t2
  let t4 := pyReplace "•" "\n- " t3
  let t5 := pyReplace ". " ".\n" t4
  String.mk t5

/-! ### Persistence round trip (app.py lines 19-31 and 140/180/189)

`df.to_csv` writes a `NaN` cell as an empty field and any string cell as its
text (quoting makes delimiters, quotes and newlines survive); `pd.read_csv`
converts any field equal to one of its default `na_values` tokens — the
empty field, "nan", "NaN", "None", "NULL", "NA", and the rest of the list
below — back to `NaN`.  This NA conversion is cell-wise and is modelled
exactly.  `read_csv` additionally applies column-wide dtype inference: a
column all of whose fields parse as numbers (or as boolean literals) is
re-typed, which rewrites such strings (e.g. "025" reloads as the integer 25).
Being column-wide and dependent on float formatting, that inference is not
modelled cell-wise; instead the round-trip theorem restricts itself to
`csvStable` strings, on which inference never fires and the cell-wise model
agrees with pandas exactly.  The load path re-runs `astype(str)` on the
`PS Number` column, which renders a `NaN` cell as the string "nan". -/

/-- `to_csv` on one cell: `NaN` becomes an empty field. -/
def writeCell : Cell → String
  | none => ""
  | some s => s

/-- The default `na_values` token list of `pd.read_csv`: any field exactly
equal to one of these reads back as `NaN`. -/
def pandasNATokens : List String :=
  ["", "#N/A", "#N/A N/A", "#NA", "-1.#IND", "-1.#QNAN", "-NaN", "-nan",
   "1.#IND", "1.#QNAN", "<NA>", "N/A", "NA", "NULL", "NaN", "None", "n/a",
   "nan", "null"]

/-- `read_csv` on one field: any default NA token becomes `NaN`. -/
def readCell (s : String) : Cell :=
  if s ∈ pandasNATokens then none else some s

/-- Characters that can occur in a token pandas' numeric inference accepts
(digits, sign, decimal point, exponent marker, surrounding whitespace). -/
def isNumericishChar (c : Char) : Bool :=
  c.isDigit || c == ' ' || c == '\t' || c == '+' || c == '-' || c == '.'
    || c == 'e' || c == 'E'

/-- Conservative test for "pandas numeric inference could accept this
field": at least one digit and nothing outside the numeric alphabet.  Every
string pandas actually parses as an integer or float satisfies this; some
strings satisfying it (e.g. "1.2.3") are not parseable, which only makes the
stability hypothesis below stronger than strictly necessary, never wrong. -/
def numericish (s : String) : Bool :=
  s.data.any Char.isDigit && s.data.all isNumericishChar

/-- Lower-cased, whitespace-stripped form, used to detect boolean and
infinity literals conservatively. -/
def strippedLower (s : String) : String :=
  String.mk (lowerList (pyStrip s).data)

/-- Conservative test for the boolean literals pandas' bool inference
accepts. -/
def boolish (s : String) : Bool :=
  strippedLower s ∈ ["true", "false"]

/-- Conservative test for the infinity literals pandas' float parser
accepts. -/
def infish (s : String) : Bool :=
  strippedLower s ∈ ["inf", "+inf", "-inf", "infinity", "+infinity", "-infinity"]

/-- A string the CSV persist/reload path provably preserves: not a default
NA token (in particular not empty), not a boolean or infinity literal, and
not numeric-looking.  On a dataset all of whose fields are `csvStable`,
`read_csv` keeps every column at object dtype and every field verbatim.
This is a conservative sufficient condition: it also excludes a few values
pandas would in fact preserve (such as an all-digit `PS Number` column with
no missing cells, which survives through the `astype(str)` re-application). -/
def csvStable (s : String) : Bool :=
  !(decide (s ∈ pandasNATokens)) && !(boolish s) && !(infish s) && !(numericish s)

/-- Stability of one cell: `NaN` always round-trips (empty field back to
`NaN`); a string cell must be `csvStable`. -/
def cellStable : Cell → Bool
  | none => true
  | some s => csvStable s

/-- A record every field of which survives the CSV round trip. -/
def csvStableRecord (r : Record) : Bool :=
  csvStable r.psNumber && cellStable r.title && cellStable r.organization
    && cellStable r.department && cellStable r.category && cellStable r.theme
    && cellStable r.description && cellStable r.status && cellStable r.notes

/-- `astype(str)` on one cell: `NaN` prints as "nan". -/
def astypeStr : Cell → String
  | none => "nan"
  | some s => s

/-- One persist/reload step on one record: every cell is written to the file
and read back; the `PS Number` column then goes through `astype(str)` again
(app.py line 22). -/
def persistReloadRecord (r : Record) : Record where
  psNumber := astypeStr (readCell r.psNumber)
  title := readCell (writeCell r.title)
  organization := readCell (writeCell r.organization)
  department := readCell (writeCell r.department)
  category := readCell (writeCell r.category)
  theme := readCell (writeCell r.theme)
  description := readCell (writeCell r.description)
  status := readCell (writeCell r.status)
  notes := readCell (writeCell r.notes)

/-- Persist the whole record set and reload it through the load path; row
order and count are preserved by `to_csv`/`read_csv`. -/
def persistReload (rs : List Record) : List Record :=
  rs.map persistReloadRecord

/-! ### Column schema (app.py lines 19-31, 235) -/

/-- The column header of the source dataset (spec section 6). -/
def sourceColumns : List String :=
  ["PS Number", "Problem Statement Title", "Organization", "Department",
   "Category", "Theme", "Description"]

/-- The in-memory column order after the load path: assigning
`df['Description_Cleaned']` appends that column when absent (and overwrites
it in place when present), then `Status` and `Notes` are appended when absent
(app.py lines 25-31).  `df.to_csv` serializes exactly these columns in this
order. -/
def loadColumns (input : List String) : List String :=
  ((if "Description_Cleaned" ∈ input then input else input ++ ["Description_Cleaned"])
      ++ if "Status" ∈ input then [] else ["Status"])
    ++ if "Notes" ∈ input then [] else ["Notes"]

/-! ### Export (app.py lines 230-240) -/

/-- Outcome of pressing "Export Shortlisted": either a downloadable CSV
artifact (its column order and its rows) or the sidebar warning
"No shortlisted ideas found." with no file offered. -/
inductive ExportResult where
  | artifact (columns : List String) (rows : List Record)
  | emptyWarning
deriving Repr, DecidableEq

/-- `shortlisted_df = df[df['Status'] == "Shortlisted"]`; if non-empty a
download of `shortlisted_df.to_csv(index=False)` is offered, else a warning
is shown and no file is produced. -/
def exportShortlisted (columns : List String) (rs : List Record) : ExportResult :=
  let sh := rs.filter fun r => decide (r.status = some "Shortlisted")
  if sh.isEmpty then ExportResult.emptyWarning else ExportResult.artifact columns sh

/-! ### Record-store mutation (app.py lines 136-141, 178-191) -/

/-- The in-memory dataframe together with the rows currently in the backing
CSV file (the same file is both source and store). -/
structure StoreState where
  mem : List Record
  disk : List Record
deriving Repr, DecidableEq

/-- Set the Status field of a record. -/
def setStatusField (v : String) (r : Record) : Record :=
  { r with status := some v }

/-- Set the Notes field of a record. -/
def setNotesField (v : String) (r : Record) : Record :=
  { r with notes := some v }

/-- `df.loc[df['PS Number'] == k, col] = value`: a boolean-mask assignment
touches exactly the rows whose key matches — and touches nothing (raising no
error) when no row matches. -/
def locSet (k : String) (f : Record → Record) (rs : List Record) : List Record :=
  rs.map fun r => if r.psNumber = k then f r else r

/-- `df.loc[df['PS Number'] == k, 'Status'].values[0]` (app.py line 136):
the Status cell of the first matching row; `none` when no row matches, in
which case the Python expression raises an uncaught `IndexError`. -/
def readStatus (rs : List Record) (k : String) : Option Cell :=
  ((rs.filter fun r => decide (r.psNumber = k)).head?).map Record.status

/-- The status-update path (app.py lines 136-141): read the current status
(crash, modelled as `none`, if the key is absent); if the new value differs,
mask-assign it and rewrite the whole CSV file. -/
def updateStatus (s : StoreState) (k v : String) : Option StoreState :=
  match readStatus s.mem k with
  | none => none
  | some cur =>
    if some v ≠ cur then
      let m := locSet k (setStatusField v) s.mem
      some { mem := m, disk := m }
    else
      some s

/-- The notes-save path (app.py lines 188-189, and identically 179-180):
mask-assign the new notes and rewrite the whole CSV file.  No read guards it
against an absent key. -/
def saveNotes (s : StoreState) (k v : String) : StoreState :=
  let m := locSet k (setNotesField v) s.mem
  { mem := m, disk := m }

/-- The error taxonomy of spec section 7 that is relevant to mutation. -/
inductive UpdateError where
  | NotFoundError
deriving Repr, DecidableEq

/-- The notes-save path with its failure behaviour made explicit: the pandas
boolean-mask assignment raises no exception when the mask selects no rows, so
this operation always succeeds — there is no failure path in the code. -/
def saveNotesChecked (s : StoreState) (k v : String) : Except UpdateError StoreState :=
  Except.ok (saveNotes s k v)

/-- The `updateField` contract as the spec words it (spec section 4.1): the
mutation locates the record with the matching key and fails with
`NotFoundError` when no record matches.  Stated here only to be compared with
the code's behaviour. -/
def updateFieldSpecContract (s : StoreState) (k v : String) : Except UpdateError StoreState :=
  if s.mem.any fun r => decide (r.psNumber = k) then Except.ok (saveNotes s k v)
  else Except.error UpdateError.NotFoundError

/-! ### Sample data for concrete checks

The two records of the spec's section-8 scenario, extended with the remaining
fields, plus auxiliary records and filter specifications. -/

/-- Scenario record 25001 ("Smart Irrigation", not reviewed). -/
def rIrrigation : Record where
  psNumber := "25001"
  title := some "Smart Irrigation"
  organization := some "Ministry of Agriculture"
  department := some "Agri Dept"
  category := some "Software"
  theme := some "Agriculture"
  description := some "Problem Statement: water crops."
  status := some "Not Reviewed"
  notes := some "seen"

/-- Scenario record 25002 ("Flood Alert", shortlisted). -/
def rFlood : Record where
  psNumber := "25002"
  title := some "Flood Alert"
  organization := some "NDMA"
  department := some "Disaster Dept"
  category := some "Software"
  theme := some "Disaster Management"
  description := some "Expected Solution: warn early."
  status := some "Shortlisted"
  notes := some "good"

/-- A record whose notes are the empty string (the in-memory default for a
freshly loaded dataset without a Notes column). -/
def rEmptyNotes : Record where
  psNumber := "25003"
  title := some "Traffic"
  organization := some "MoRTH"
  department := some "Transport"
  category := some "Software"
  theme := some "Smart Automation"
  description := some "Problem Statement: congestion."
  status := some "Not Reviewed"
  notes := some ""

/-- A wildcard-only specification with an empty query. -/
def specAll : FilterSpec where
  category := "All"
  organization := "All"
  theme := "All"
  department := "All"
  status := "All"
  searchQuery := ""

/-- One non-wildcard categorical selection (theme). -/
def specTheme : FilterSpec :=
  { specAll with theme := "Disaster Management" }

/-- The section-8 scenario query. -/
def specFlood : FilterSpec :=
  { specAll with searchQuery := "flood" }

/-- A query consisting of the bare regex wildcard. -/
def specDot : FilterSpec :=
  { specAll with searchQuery := "." }

/-- A store holding the two scenario records in memory and on disk. -/
def sTwo : StoreState where
  mem := [rIrrigation, rFlood]
  disk := [rIrrigation, rFlood]

/-- The spec's section-8 formatter scenario input. -/
def c4Scenario : String :=
  "Problem Statement: build an app. Background: rural areas. Expected Solution: use AI."

/-- A record all of whose fields are CSV-stable strings, for the round-trip
witness (note the non-numeric-looking PS number). -/
def rStableA : Record where
  psNumber := "PS-25001"
  title := some "Smart Irrigation"
  organization := some "Ministry of Agriculture"
  department := some "Agri Dept"
  category := some "Software"
  theme := some "Agriculture"
  description := some "Problem Statement: water crops."
  status := some "Not Reviewed"
  notes := some "seen"

/-- A second CSV-stable record whose notes cell is `NaN`, exercising the
missing-value pass-through of the round trip. -/
def rStableB : Record where
  psNumber := "PS-25002"
  title := some "Flood Alert"
  organization := some "NDMA"
  department := some "Disaster Dept"
  category := some "Software"
  theme := some "Disaster Management"
  description := some "Expected Solution: warn early."
  status := some "Shortlisted"
  notes := none

/-! ### Helper lemmas about the filter pipeline -/

/-- Each categorical stage is one `List.filter` whose predicate is vacuously
true when the selection is the wildcard "All". -/
theorem filterStage_eq (sel : String) (get : Record → Cell) (rs : List Record) :
    (if sel = "All" then rs else rs.filter fun r => decide (get r = some sel))
      = rs.filter fun r => decide (sel = "All") || decide (get r = some sel) := by
  by_cases h : sel = "All"
  · simp [h]
  · simp [h]

/-- Reassociation of a five-fold boolean conjunction. -/
theorem bool_and5_reorder (a b c d e : Bool) :
    (e && (d && (c && (b && a)))) = (a && b && c && d && e) := by
  cases a <;> cases b <;> cases c <;> cases d <;> cases e <;> rfl

/-- The five sequential categorical filters equal one stable pass with the
AND-combination of the five predicates. -/
theorem applyCategoricals_eq_filter (spec : FilterSpec) (rs : List Record) :
    applyCategoricals spec rs = rs.filter (catPred spec) := by
  unfold applyCategoricals filterCategory filterOrganization filterTheme
    filterDepartment filterStatus
  rw [filterStage_eq spec.category fun r => r.category]
  rw [filterStage_eq spec.organization fun r => r.organization]
  rw [filterStage_eq spec.theme fun r => r.theme]
  rw [filterStage_eq spec.department fun r => r.department]
  rw [filterStage_eq spec.status fun r => r.status]
  simp only [ List.filter_filter]
  exact List.filter_congr fun r _ => bool_and5_reorder _ _ _ _ _

/-- The search stage never reorders and never adds records. -/
theorem applyFilters_sublist_categoricals (spec : FilterSpec) (rs : List Record) :
    (applyFilters spec rs).Sublist (applyCategoricals spec rs) := by
  unfold applyFilters filterSearch
  split
  · exact List.Sublist.refl _
  · exact List.filter_sublist _

/-! ### C1 -/

/-- C1: each of the five categorical filters is skipped when its selection is
the wildcard "All" and is otherwise an exact equality test; the five are
AND-combined into a single stable pass, every record of the output satisfies
every active predicate, and the output is a subsequence of the input (no
sorting, no reordering). -/
theorem c1_categorical_filters (rs : List Record) (spec : FilterSpec) :
    (applyFilters spec rs).Sublist rs
    ∧ applyCategoricals spec rs = rs.filter (catPred spec)
    ∧ ∀ r ∈ applyFilters spec rs,
        (spec.category ≠ "All" → r.category = some spec.category)
        ∧ (spec.organization ≠ "All" → r.organization = some spec.organization)
        ∧ (spec.theme ≠ "All" → r.theme = some spec.theme)
        ∧ (spec.department ≠ "All" → r.department = some spec.department)
        ∧ (spec.status ≠ "All" → r.status = some spec.status) := by
  have hcat := applyCategoricals_eq_filter spec rs
  have hsub1 := applyFilters_sublist_categoricals spec rs
  have hsub2 : (applyCategoricals spec rs).Sublist rs := by
    rw [hcat]
    exact List.filter_sublist rs
  refine ⟨hsub1.trans hsub2, hcat, ?_⟩
  intro r hr
  have hr2 : r ∈ applyCategoricals spec rs := hsub1.subset hr
  rw [hcat] at hr2
  have hp := (List.mem_filter.mp hr2).2
  unfold catPred at hp
  simp only [Bool.and_eq_true, Bool.or_eq_true, decide_eq_true_eq] at hp
  obtain ⟨⟨⟨⟨h1, h2⟩, h3⟩, h4⟩, h5⟩ := hp
  exact ⟨fun h => h1.resolve_left h, fun h => h2.resolve_left h,
    fun h => h3.resolve_left h, fun h => h4.resolve_left h,
    fun h => h5.resolve_left h⟩

/-- Witness for C1 at the scenario records with an active theme filter: the
theorem yields the exact-equality fact for the surviving record and the
subsequence fact for the output. -/
theorem c1_categorical_filters_witness :
    rFlood.theme = some "Disaster Management"
    ∧ (applyFilters specTheme [rIrrigation, rFlood]).Sublist [rIrrigation, rFlood] :=
  ⟨((((c1_categorical_filters [rIrrigation, rFlood] specTheme).2.2
      rFlood (by decide)).2.2).1 (by decide)).trans (by decide),
    (c1_categorical_filters [rIrrigation, rFlood] specTheme).1⟩

/-! ### C3 -/

/-- C3: the cursor clamp returns 0 when the filtered sequence is empty or the
prior cursor is at or past its length, and returns the cursor unchanged
otherwise; for a non-empty sequence the clamped value is a valid index. -/
theorem c3_cursor_clamp (c L : Nat) :
    clampIndex c L = (if L = 0 ∨ c ≥ L then 0 else c)
    ∧ (0 < L → clampIndex c L < L) := by
  unfold clampIndex
  constructor
  · split_ifs <;> omega
  · intro hL
    split_ifs <;> omega

/-- Witness for C3: clamping cursor 5 against a 3-element sequence gives a
valid index. -/
theorem c3_cursor_clamp_witness : clampIndex 5 3 < 3 :=
  (c3_cursor_clamp 5 3).2 (by decide)

/-! ### C10 -/

/-- Stripping a string of whitespace characters only yields the empty
string. -/
theorem pyStrip_eq_empty (s : String) (h : ∀ c ∈ s.data, isPySpace c = true) :
    pyStrip s = "" := by
  unfold pyStrip
  have h1 : s.data.dropWhile isPySpace = [] := List.dropWhile_eq_nil_iff.mpr h
  rw [h1]
  rfl

/-- The categorical stages read none of the search state. -/
theorem applyCategoricals_query_irrel (spec : FilterSpec) (q : String)
    (rs : List Record) :
    applyCategoricals { spec with searchQuery := q } rs = applyCategoricals spec rs := rfl

/-- C10: the raw search box value is stripped before filtering, so a
whitespace-only query behaves exactly like the empty query — the search
predicate is not applied and the categorical output is returned whole. -/
theorem c10_whitespace_query (rs : List Record) (spec : FilterSpec) (raw : String)
    (h : ∀ c ∈ raw.data, isPySpace c = true) :
    runQuery spec raw rs = applyCategoricals spec rs
    ∧ runQuery spec raw rs = runQuery spec "" rs := by
  have key : ∀ q : String, pyStrip q = "" → runQuery spec q rs = applyCategoricals spec rs := by
    intro q hq
    show filterSearch (pyStrip q)
        (applyCategoricals { spec with searchQuery := pyStrip q } rs)
      = applyCategoricals spec rs
    rw [hq, applyCategoricals_query_irrel]
    rfl
  have hs := key raw (pyStrip_eq_empty raw h)
  exact ⟨hs, hs.trans (key "" rfl).symm⟩

/-- Witness for C10: a three-space query leaves the scenario records exactly
as the categorical filters left them. -/
theorem c10_whitespace_query_witness :
    runQuery specAll "   " [rIrrigation, rFlood]
      = applyCategoricals specAll [rIrrigation, rFlood] :=
  (c10_whitespace_query [rIrrigation, rFlood] specAll "   " (by decide)).1

/-! ### C7 -/

/-- C7: when no record is shortlisted the export signals the user-visible
empty-export warning and produces no artifact. -/
theorem c7_empty_export (cols : List String) (rs : List Record)
    (h : ∀ r ∈ rs, r.status ≠ some "Shortlisted") :
    exportShortlisted cols rs = ExportResult.emptyWarning := by
  unfold exportShortlisted
  have hf : (rs.filter fun r => decide (r.status = some "Shortlisted")) = [] :=
    List.filter_eq_nil_iff.mpr fun r hr => by simpa using h r hr
  simp [hf]

/-- Witness for C7: neither sample non-shortlisted record triggers an
artifact. -/
theorem c7_empty_export_witness :
    exportShortlisted (loadColumns sourceColumns) [rIrrigation, rEmptyNotes]
      = ExportResult.emptyWarning :=
  c7_empty_export (loadColumns sourceColumns) [rIrrigation, rEmptyNotes] (by decide)

/-! ### C5 -/

/-- A stable string is in particular not an NA token. -/
theorem csvStable_not_na (s : String) (h : csvStable s = true) :
    s ∉ pandasNATokens := by
  simp only [csvStable, Bool.and_eq_true, Bool.not_eq_true',
    decide_eq_false_iff_not] at h
  exact h.1.1.1

/-- Stable cells survive the CSV round trip: `NaN` is written as an empty
field and read back as `NaN`; a stable string is no NA token, so it is read
back verbatim. -/
theorem readCell_writeCell (c : Cell) (hc : cellStable c = true) :
    readCell (writeCell c) = c := by
  match c with
  | none => rfl
  | some s =>
    have hs : s ∉ pandasNATokens := csvStable_not_na s hc
    simp [writeCell, readCell, hs]

/-- A record with CSV-stable fields survives one persist/reload step. -/
theorem persistReloadRecord_eq (r : Record) (h : csvStableRecord r = true) :
    persistReloadRecord r = r := by
  cases r with
  | mk a b c d e f g i j =>
    simp only [csvStableRecord, Bool.and_eq_true] at h
    obtain ⟨⟨⟨⟨⟨⟨⟨⟨h1, h2⟩, h3⟩, h4⟩, h5⟩, h6⟩, h7⟩, h8⟩, h9⟩ := h
    simp only [persistReloadRecord, Record.mk.injEq]
    refine ⟨?_, readCell_writeCell _ h2, readCell_writeCell _ h3,
      readCell_writeCell _ h4, readCell_writeCell _ h5, readCell_writeCell _ h6,
      readCell_writeCell _ h7, readCell_writeCell _ h8, readCell_writeCell _ h9⟩
    simp only [readCell]
    rw [if_neg (csvStable_not_na a h1)]
    rfl

/-- C5 (amended): persisting and reloading yields field-for-field equal
records for every record set all of whose fields are `NaN` or CSV-stable
strings — not empty, not a pandas default NA token, not a boolean or
infinity literal, and not numeric-looking.  Fields outside this set are
destroyed by the reload path: empty and NA-token fields reload as `NaN`,
and numeric- or boolean-looking columns are re-typed by dtype inference. -/
theorem c5_roundtrip (rs : List Record) (h : ∀ r ∈ rs, csvStableRecord r = true) :
    persistReload rs = rs := by
  unfold persistReload
  calc rs.map persistReloadRecord = rs.map id :=
        List.map_congr_left fun r hr => persistReloadRecord_eq r (h r hr)
    _ = rs := List.map_id rs

/-- C5 counterexample: a record whose notes are the empty string — the
default for a dataset loaded without a Notes column — does not survive the
round trip: `to_csv` writes the empty notes as an empty field and `read_csv`
reads that field back as `NaN`.  A notes value equal to the NA token "nan"
is destroyed the same way. -/
theorem c5_roundtrip_counterexample :
    persistReload [rEmptyNotes] ≠ [rEmptyNotes]
    ∧ persistReloadRecord { rEmptyNotes with notes := some "nan" }
        ≠ { rEmptyNotes with notes := some "nan" } := by
  decide

/-- Witness for C5: two records all of whose fields are CSV-stable (one with
a `NaN` notes cell) survive the round trip unchanged. -/
theorem c5_roundtrip_witness : persistReload [rStableA, rStableB] = [rStableA, rStableB] :=
  c5_roundtrip [rStableA, rStableB] (by decide)

/-! ### C6 -/

/-- C6 (amended): with at least one shortlisted record, the export artifact
holds exactly the records whose status equals "Shortlisted" (exact match, in
input order, a subsequence of the input) with all fields — but its column
schema is the in-memory schema, which appends the derived
`Description_Cleaned` column (and `Status`/`Notes` when absent from the
input) to the input columns, not the input source schema itself. -/
theorem c6_export_shortlisted (input : List String) (rs : List Record)
    (h : ∃ r ∈ rs, r.status = some "Shortlisted") :
    exportShortlisted (loadColumns input) rs
      = ExportResult.artifact (loadColumns input)
          (rs.filter fun r => decide (r.status = some "Shortlisted"))
    ∧ (rs.filter fun r => decide (r.status = some "Shortlisted")).Sublist rs
    ∧ ∀ r, (r ∈ rs.filter fun r => decide (r.status = some "Shortlisted"))
        ↔ r ∈ rs ∧ r.status = some "Shortlisted" := by
  obtain ⟨r0, hr0, hs0⟩ := h
  have hne : (rs.filter fun r => decide (r.status = some "Shortlisted")) ≠ [] := by
    intro he
    have := List.filter_eq_nil_iff.mp he r0 hr0
    simp [hs0] at this
  refine ⟨?_, List.filter_sublist rs, fun r => by simp⟩
  unfold exportShortlisted
  rw [if_neg (by simpa using hne)]

/-- C6 counterexample: exporting the shortlisted scenario record from a
dataset with the source column schema produces an artifact whose column list
is the source schema with `Description_Cleaned`, `Status` and `Notes`
appended — not the source schema itself. -/
theorem c6_export_shortlisted_counterexample :
    exportShortlisted (loadColumns sourceColumns) [rFlood]
        = ExportResult.artifact (loadColumns sourceColumns) [rFlood]
    ∧ loadColumns sourceColumns ≠ sourceColumns := by
  decide

/-- Witness for C6: the scenario pair exports exactly its shortlisted
record. -/
theorem c6_export_shortlisted_witness :
    exportShortlisted (loadColumns sourceColumns) [rIrrigation, rFlood]
      = ExportResult.artifact (loadColumns sourceColumns) [rFlood] :=
  ((c6_export_shortlisted sourceColumns [rIrrigation, rFlood]
      ⟨rFlood, by decide, by decide⟩).1).trans (by decide)

/-! ### C8 -/

/-- C8 (amended): a mutation keyed by a `psNumber` matching no record does
not fail with `NotFoundError`.  The notes-save path completes silently — the
mask assignment touches no row, the record set is unchanged, and the whole
(unchanged) set is still rewritten to the file.  The status-update path
crashes beforehand: the `.values[0]` read of the current status raises an
uncaught `IndexError` (modelled as `none`). -/
theorem c8_missing_key (s : StoreState) (k v : String)
    (h : ∀ r ∈ s.mem, r.psNumber ≠ k) :
    saveNotes s k v = { mem := s.mem, disk := s.mem }
    ∧ updateStatus s k v = none := by
  have hloc : ∀ f : Record → Record, locSet k f s.mem = s.mem := by
    intro f
    unfold locSet
    calc s.mem.map (fun r => if r.psNumber = k then f r else r) = s.mem.map id :=
          List.map_congr_left fun r hr => if_neg (h r hr)
      _ = s.mem := List.map_id s.mem
  constructor
  · unfold saveNotes
    rw [hloc]
  · have hf : s.mem.filter (fun r => decide (r.psNumber = k)) = [] :=
      List.filter_eq_nil_iff.mpr fun r hr => by simpa using h r hr
    unfold updateStatus readStatus
    rw [hf]
    rfl

/-- C8 counterexample: with the single record 25001 in store, saving notes
under the absent key 99999 completes with `ok` and an unchanged store — it
does not fail — while the spec-side contract demands `NotFoundError` on the
same input. -/
theorem c8_missing_key_counterexample :
    saveNotesChecked sTwo "99999" "x" = Except.ok sTwo
    ∧ updateFieldSpecContract sTwo "99999" "x" = Except.error UpdateError.NotFoundError :=
  ⟨rfl, rfl⟩

/-- Witness for C8 at the two-record store and the absent key 99999. -/
theorem c8_missing_key_witness :
    saveNotes sTwo "99999" "x" = { mem := sTwo.mem, disk := sTwo.mem }
    ∧ updateStatus sTwo "99999" "x" = none :=
  c8_missing_key sTwo "99999" "x" (by decide)

/-! ### C9 -/

/-- Reading the status back after a mask assignment of it: the first matching
row (the one `.values[0]` returns) now carries the assigned value; an absent
key still reads as absent. -/
theorem readStatus_locSet (rs : List Record) (k v : String) :
    readStatus (locSet k (setStatusField v) rs) k
      = (readStatus rs k).map fun _ => some v := by
  induction rs with
  | nil => rfl
  | cons r rs ih =>
    by_cases h : r.psNumber = k
    · simp [readStatus, locSet, List.filter_cons, setStatusField, h]
    · simpa [readStatus, locSet, List.filter_cons, h] using ih

/-- A present key always reads some current status cell. -/
theorem readStatus_of_mem (rs : List Record) (k : String)
    (h : ∃ r ∈ rs, r.psNumber = k) :
    ∃ c, readStatus rs k = some c := by
  obtain ⟨r, hr, hk⟩ := h
  have hne : rs.filter (fun r => decide (r.psNumber = k)) ≠ [] := by
    intro he
    have := List.filter_eq_nil_iff.mp he r hr
    simp [hk] at this
  match hm : rs.filter fun r => decide (r.psNumber = k) with
  | [] => exact absurd hm hne
  | r0 :: rest =>
    refine ⟨r0.status, ?_⟩
    unfold readStatus
    rw [hm]
    rfl

/-- C9: updating the status of a present key twice with the same value leaves
the state — in-memory records and persisted file alike — identical after the
second call to the state after the first: the second call reads the value it
is about to write and the `new_status != current_status` guard suppresses
both the assignment and the file write. -/
theorem c9_status_update_idempotent (s : StoreState) (k v : String)
    (h : ∃ r ∈ s.mem, r.psNumber = k) :
    (updateStatus s k v).bind (fun t => updateStatus t k v) = updateStatus s k v := by
  obtain ⟨c, hc⟩ := readStatus_of_mem s.mem k h
  by_cases hv : some v = c
  · have h1 : updateStatus s k v = some s := by
      unfold updateStatus
      rw [hc]
      simp [hv]
    rw [h1]
    show updateStatus s k v = some s
    exact h1
  · have h1 : updateStatus s k v
        = some { mem := locSet k (setStatusField v) s.mem
               , disk := locSet k (setStatusField v) s.mem } := by
      unfold updateStatus
      rw [hc]
      simp [hv]
    rw [h1]
    show updateStatus
        { mem := locSet k (setStatusField v) s.mem
        , disk := locSet k (setStatusField v) s.mem } k v
      = some { mem := locSet k (setStatusField v) s.mem
             , disk := locSet k (setStatusField v) s.mem }
    have h2 : readStatus (locSet k (setStatusField v) s.mem) k = some (some v) := by
      rw [readStatus_locSet, hc]
      rfl
    unfold updateStatus
    rw [h2]
    simp

/-- Witness for C9: shortlisting record 25001 twice equals shortlisting it
once, store and file included. -/
theorem c9_status_update_idempotent_witness :
    (updateStatus sTwo "25001" "Shortlisted").bind
        (fun t => updateStatus t "25001" "Shortlisted")
      = updateStatus sTwo "25001" "Shortlisted" :=
  c9_status_update_idempotent sTwo "25001" "Shortlisted" (by decide)

/-! ### C4 -/

/-- C4: the description formatter is exactly the in-order composition of the
three transforms — emphasize the three section labels case-insensitively
with their casing preserved, turn bullet glyphs into newline-plus-dash, and
break after every period-space — and on the scenario input it emphasizes all
three labels and puts each sentence on its own line.  The third and fourth
conjuncts check casing preservation on a lower-case label and the bullet
replacement. -/
theorem c4_description_formatter :
    (∀ s : String,
      formatDescription s
        = String.mk (pyReplace ". " ".\n" (pyReplace "•" "\n- "
            (emphasize "Expected Solution" (emphasize "Background"
              (emphasize "Problem Statement" s.data))))))
    ∧ formatDescription c4Scenario
        = "**Problem Statement**: build an app.\n**Background**: rural areas.\n**Expected Solution**: use AI."
    ∧ formatDescription "the problem statement is X. next"
        = "the **problem statement** is X.\nnext"
    ∧ formatDescription "Features:• one• two" = "Features:\n-  one\n-  two" := by
  refine ⟨fun s => rfl, by decide, by decide, by decide⟩

/-! ### C2

The code's search is pandas `str.contains` with its default `regex=True`,
so a query is a regular-expression pattern, not a literal substring.  For
queries free of regex metacharacters the two notions agree (proved below);
for the query "." they differ (the counterexample). -/

/-- A metacharacter-free query compiles to an all-literal pattern. -/
theorem compilePattern_lit (q : String) (h : ∀ c ∈ q.data, isRegexMeta c = false) :
    compilePattern q = q.data.map RTok.lit := by
  unfold compilePattern
  apply List.map_congr_left
  intro c hc
  have hd : ¬c = '.' := by
    intro e
    have := h c hc
    rw [e] at this
    simp [isRegexMeta] at this
  rw [if_neg hd]

/-- An all-literal pattern matches at a position exactly when the lowered
pattern text is a leading piece of the lowered remaining text. -/
theorem matchesHere_lit (l : List Char) (cs : List Char) :
    matchesHere (l.map RTok.lit) cs = true ↔ lowerList l <+: lowerList cs := by
  induction l generalizing cs with
  | nil => simp [matchesHere, lowerList]
  | cons a l ih =>
    cases cs with
    | nil => simp [matchesHere, lowerList]
    | cons c cs =>
      simp [matchesHere, tokMatches, lowerList, List.cons_prefix_cons, ih,
        Bool.and_eq_true, beq_iff_eq]

/-- `re.search` succeeds exactly when the pattern matches at the start of
some suffix of the text. -/
theorem reSearch_iff (ts : List RTok) (s : List Char) :
    reSearch ts s = true ↔ ∃ t, t <:+ s ∧ matchesHere ts t = true := by
  induction s with
  | nil => simp [reSearch, List.suffix_nil]
  | cons c cs ih =>
    simp only [reSearch, Bool.or_eq_true, ih, List.suffix_cons_iff]
    constructor
    · rintro (hm | ⟨t, hts, hm⟩)
      · exact ⟨c :: cs, Or.inl rfl, hm⟩
      · exact ⟨t, Or.inr hts, hm⟩
    · rintro ⟨t, hor | hts, hm⟩
      · exact Or.inl (hor ▸ hm)
      · exact Or.inr ⟨t, hts, hm⟩

/-- A suffix of a lowered text is the lowering of a suffix of the text. -/
theorem suffix_of_map_lower (u : List Char) (s : List Char) (h : u <:+ lowerList s) :
    ∃ t, t <:+ s ∧ u = lowerList t := by
  obtain ⟨p, hp⟩ := h
  have hm : s.map Char.toLower = p ++ u := hp.symm
  obtain ⟨l₁, l₂, hsplit, hmap1, hmap2⟩ := List.map_eq_append_iff.mp hm
  exact ⟨l₂, ⟨l₁, hsplit.symm⟩, hmap2.symm⟩

/-- A boolean equals the decision of any proposition equivalent to its
truth. -/
theorem bool_eq_decide (b : Bool) (p : Prop) [Decidable p] (h : b = true ↔ p) :
    b = decide p := by
  cases b <;> simp_all

/-- On metacharacter-free queries the code's regex search coincides with the
case-insensitive substring test. -/
theorem reSearch_lit_eq (s q : String) (h : ∀ c ∈ q.data, isRegexMeta c = false) :
    reSearch (compilePattern q) s.data = containsCI s q := by
  rw [compilePattern_lit q h]
  unfold containsCI
  apply bool_eq_decide
  rw [reSearch_iff]
  constructor
  · rintro ⟨t, hts, hm⟩
    exact List.infix_iff_prefix_suffix.mpr
      ⟨lowerList t, (matchesHere_lit _ _).mp hm, List.IsSuffix.map _ hts⟩
  · intro hinf
    obtain ⟨u, hpre, hsuf⟩ := List.infix_iff_prefix_suffix.mp hinf
    obtain ⟨t, hts, rfl⟩ := suffix_of_map_lower u s.data hsuf
    exact ⟨t, hts, (matchesHere_lit _ _).mpr hpre⟩

/-- On metacharacter-free queries the record-level search predicate is the
substring disjunction over PS number and title, with `NaN` titles never
matching. -/
theorem searchHit_eq (q : String) (r : Record)
    (h : ∀ c ∈ q.data, isRegexMeta c = false) :
    searchHit q r = (containsCI r.psNumber q || cellContainsCI r.title q) := by
  unfold searchHit
  rw [reSearch_lit_eq r.psNumber q h]
  congr 1
  unfold cellContains cellContainsCI
  match r.title with
  | none => rfl
  | some t => exact reSearch_lit_eq t q h

/-- C2 (amended): the non-empty query is applied after the categorical
filters as one stable filter pass; because the code uses
`str.contains(query, case=False, na=False)` with the pandas default
`regex=True`, the query is interpreted as a case-insensitive regular
expression, which for queries free of regex metacharacters is exactly the
case-insensitive substring test on psNumber or title, with empty or `NaN`
fields never matching. -/
theorem c2_search_substring (rs : List Record) (spec : FilterSpec)
    (hq : spec.searchQuery ≠ "")
    (hlit : ∀ c ∈ spec.searchQuery.data, isRegexMeta c = false) :
    applyFilters spec rs
      = (applyCategoricals spec rs).filter
          fun r => containsCI r.psNumber spec.searchQuery
            || cellContainsCI r.title spec.searchQuery := by
  unfold applyFilters filterSearch
  rw [if_neg hq]
  exact List.filter_congr fun r _ => searchHit_eq spec.searchQuery r hlit

/-- C2 counterexample: the query "." is a regex wildcard for `str.contains`,
so the search keeps the scenario record 25002 — and the whole pipeline
returns it — although "." is a case-insensitive substring of neither its PS
number nor its title, contradicting the claimed "if and only if substring"
behaviour. -/
theorem c2_search_substring_counterexample :
    searchHit "." rFlood = true
    ∧ containsCI rFlood.psNumber "." = false
    ∧ cellContainsCI rFlood.title "." = false
    ∧ applyFilters specDot [rFlood] = [rFlood] := by
  decide

/-- Witness for C2 at the section-8 scenario: the query "flood" keeps
exactly the record titled "Flood Alert". -/
theorem c2_search_substring_witness :
    applyFilters specFlood [rIrrigation, rFlood] = [rFlood] :=
  (c2_search_substring [rIrrigation, rFlood] specFlood (by decide) (by decide)).trans
    (by decide)

end PSReader
